import Mathlib

/-!
Verification of the OpenAPI-to-Postman converter (`converter.py`).

The program manipulates parsed JSON documents (Python dicts/lists/scalars).
We embed those values as the inductive type `Json`, with Python dicts as
association lists in insertion order (Python 3.7+ dicts preserve insertion
order, and dict updates of an existing key keep its position).  Python
operations that can raise (`.get` on a non-dict, subscripting, `in` on a
non-container, indexing an empty list, unbounded recursion) are embedded in
the `Except PyErr` monad; a `.error` value models a raised exception.
-/

/-- A JSON-compatible Python value: None, bool, int, float, str, list, dict.
Python ints and floats are distinct (`0` versus `0.0`), so they get distinct
constructors; floats are modelled as rationals, which is exact for every
float value the converter itself produces. -/
inductive Json where
  | null : Json
  | bool : Bool → Json
  | int : Int → Json
  | float : Rat → Json
  | str : String → Json
  | arr : List Json → Json
  | obj : List (String × Json) → Json
deriving Repr

/-- The Python exceptions the embedded code can raise. -/
inductive PyErr where
  | attributeError : PyErr
  | typeError : PyErr
  | indexError : PyErr
  | keyError : PyErr
  | recursionError : PyErr
deriving Repr, DecidableEq

mutual
/-- Structural equality of `Json` values, modelling Python `==` on
JSON-shaped data (values of different constructors are never equal, which
matches Python for the comparisons the converter performs: they always
compare against a string literal). -/
def Json.beq : Json → Json → Bool
  | .null, .null => true
  | .bool a, .bool b => a == b
  | .int a, .int b => a == b
  | .float a, .float b => a == b
  | .str a, .str b => a == b
  | .arr a, .arr b => Json.beqList a b
  | .obj a, .obj b => Json.beqObj a b
  | _, _ => false

def Json.beqList : List Json → List Json → Bool
  | [], [] => true
  | a :: as, b :: bs => Json.beq a b && Json.beqList as bs
  | _, _ => false

def Json.beqObj : List (String × Json) → List (String × Json) → Bool
  | [], [] => true
  | (ka, va) :: as, (kb, vb) :: bs => ka == kb && Json.beq va vb && Json.beqObj as bs
  | _, _ => false
end

instance : BEq Json := ⟨Json.beq⟩

/-- Lookup in a Python dict (association list), returning the value of the
first matching key. -/
def lookupKey : List (String × Json) → String → Option Json
  | [], _ => none
  | (k', v) :: rest, k => if k' = k then some v else lookupKey rest k

/-- Python dict assignment `d[k] = v`: overwrite in place if the key is
present (keeping its position), else append at the end. -/
def dictSet (kvs : List (String × Json)) (k : String) (v : Json) : List (String × Json) :=
  match kvs with
  | [] => [(k, v)]
  | (k', v') :: rest => if k' = k then (k, v) :: rest else (k', v') :: dictSet rest k v

/-- Remove every entry with the given key from a dict. -/
def eraseKey : List (String × Json) → String → List (String × Json)
  | [], _ => []
  | (k', v) :: rest, k =>
    if k' = k then eraseKey rest k else (k', v) :: eraseKey rest k

/-- Python truthiness of a JSON-shaped value. -/
def pyTruthy : Json → Bool
  | .null => false
  | .bool b => b
  | .int n => n != 0
  | .float q => q != 0
  | .str s => s != ""
  | .arr xs => !xs.isEmpty
  | .obj kvs => !kvs.isEmpty

/-- Python `x.get(k, d)`: works on dicts, raises AttributeError otherwise. -/
def dictGet (j : Json) (k : String) (d : Json) : Except PyErr Json :=
  match j with
  | .obj kvs => .ok ((lookupKey kvs k).getD d)
  | _ => .error .attributeError

/-- Python `x.get(k)` (default `None`). -/
def dictGet1 (j : Json) (k : String) : Except PyErr Json :=
  dictGet j k .null

/-- Python `x[k]` with a string key: KeyError on a dict without the key,
TypeError on anything that is not a dict. -/
def pySubscript (j : Json) (k : String) : Except PyErr Json :=
  match j with
  | .obj kvs =>
    match lookupKey kvs k with
    | some v => .ok v
    | none => .error .keyError
  | _ => .error .typeError

/-- Is `p` a contiguous sublist of the second argument? (Python substring
membership `p in s`.) -/
def hasSubstrAux (p : List Char) : List Char → Bool
  | [] => decide (p = [])
  | c :: rest => p.isPrefixOf (c :: rest) || hasSubstrAux p rest

/-- Python substring test `pat in s`. -/
def hasSubstr (s pat : String) : Bool := hasSubstrAux pat.data s.data

/-- Python `k in x` for a string `k`: key membership on dicts, substring
test on strings, element membership on lists, TypeError otherwise. -/
def pyContains (j : Json) (k : String) : Except PyErr Bool :=
  match j with
  | .obj kvs => .ok (lookupKey kvs k).isSome
  | .str s => .ok (hasSubstr s k)
  | .arr xs => .ok (xs.any fun x => Json.beq x (.str k))
  | _ => .error .typeError

/-- Python `x[0]`: first element of a list (IndexError when empty), first
character of a string, KeyError on a dict (an integer is not one of its
string keys), TypeError otherwise. -/
def pyIndex0 : Json → Except PyErr Json
  | .arr [] => .error .indexError
  | .arr (x :: _) => .ok x
  | .str s =>
    match s.data with
    | [] => .error .indexError
    | c :: _ => .ok (.str (String.singleton c))
  | .obj _ => .error .keyError
  | _ => .error .typeError

/-- Python `x.items()`: key/value pairs of a dict, AttributeError otherwise. -/
def pyItems (j : Json) : Except PyErr (List (String × Json)) :=
  match j with
  | .obj kvs => .ok kvs
  | _ => .error .attributeError

/-- Python `for t in x`: elements of a list, characters of a string, keys of
a dict, TypeError otherwise. -/
def pyIter (j : Json) : Except PyErr (List Json) :=
  match j with
  | .arr xs => .ok xs
  | .str s => .ok (s.data.map fun c => .str (String.singleton c))
  | .obj kvs => .ok (kvs.map fun kv => .str kv.1)
  | _ => .error .typeError

/-- Python `x[k] = v` on a JSON value: dict assignment, TypeError otherwise. -/
def pySetItem (j : Json) (k : String) (v : Json) : Except PyErr Json :=
  match j with
  | .obj kvs => .ok (.obj (dictSet kvs k v))
  | _ => .error .typeError

/-- Python hashability check performed by `tag not in tag_groups`: lists and
dicts are unhashable and raise TypeError when used in a key lookup. -/
def pyHashable (j : Json) : Except PyErr Unit :=
  match j with
  | .arr _ => .error .typeError
  | .obj _ => .error .typeError
  | _ => .ok ()

/-- Split a character list on a separator character (Python
`s.split(sep)` for the one-character separators the converter uses). -/
def splitOnChar (c : Char) : List Char → List (List Char)
  | [] => [[]]
  | x :: rest =>
    let r := splitOnChar c rest
    if x = c then [] :: r
    else
      match r with
      | [] => [[x]]
      | h :: t => (x :: h) :: t

/-- Python `s.split("/")`. -/
def pySplitSlash (s : String) : List String :=
  (splitOnChar '/' s.data).map fun l => ⟨l⟩

/-- Python `s.startswith(pre)`. -/
def pyStartsWith (s pre : String) : Bool := pre.data.isPrefixOf s.data

/-- Python `s.upper()` (the converter only applies it to ASCII method
tokens). -/
def pyUpper (s : String) : String := ⟨s.data.map Char.toUpper⟩

/-- Python `s.lower()` (applied to ASCII method tokens and role names). -/
def pyLower (s : String) : String := ⟨s.data.map Char.toLower⟩

/-! ## Reference Resolver (`_resolve_schema_ref`, source lines 58-67) -/

/-- The pointer walk inside `_resolve_schema_ref`: starting from the loaded
specification document, for each path segment other than `"#"` do
`resolved = resolved.get(part, {})`.  A lookup on a non-dict intermediate
value raises AttributeError, exactly as `.get` does in Python. -/
def walkSegs (doc : Json) (segs : List String) : Except PyErr Json :=
  segs.foldlM
    (fun resolved part =>
      if part = "#" then pure resolved else dictGet resolved part (.obj []))
    doc

/-- Embedding of `_resolve_schema_ref(schema)` (source lines 58-67): if the
fragment contains `"$ref"`, split the pointer on `"/"` and walk the
specification document; otherwise return the fragment unchanged. -/
def resolve_schema_ref (spec schema : Json) : Except PyErr Json := do
  let hasRef ← pyContains schema "$ref"
  if hasRef then do
    let refVal ← pySubscript schema "$ref"
    match refVal with
    | .str r => walkSegs spec (pySplitSlash r)
    | _ => .error .attributeError
  else
    pure schema

/-! ## Example Synthesizer (`_generate_example_body`, source lines 69-111) -/

/-- One step of the list comprehension on source line 85: append `t.get("type")`
to the accumulated list when the alternative `t` has a `type` key. -/
def collectAnyOfTypes (acc : List Json) (t : Json) : Except PyErr (List Json) := do
  let h ← pyContains t "type"
  if h then do
    let tv ← dictGet1 t "type"
    pure (acc ++ [tv])
  else pure acc

/-- The type-selection step for one property (source lines 83-88): if the
property schema declares `anyOf`, collect the `type` of every alternative
that has one and take the first, defaulting to `"string"`; otherwise read
the declared `type`, defaulting to `"string"`. -/
def propType (prop_details : Json) : Except PyErr Json := do
  let hasAnyOf ← pyContains prop_details "anyOf"
  if hasAnyOf then do
    let anyOfVal ← pySubscript prop_details "anyOf"
    let alts ← pyIter anyOfVal
    let types ← alts.foldlM collectAnyOfTypes ([] : List Json)
    pure (types.headD (Json.str "string"))
  else
    dictGet prop_details "type" (Json.str "string")

/-- The body of the property loop of `_generate_example_body` (source lines
77-109), processing one `(prop_name, prop_details)` pair against the
accumulated example dict `ex`.  `recur` is the recursive call to the
synthesizer used for `array` items and `object` sub-schemas.  A property
whose resolved type is not one of the seven recognized strings falls
through the `if`/`elif` chain and is not assigned at all. -/
def genProp (recur : Json → Except PyErr Json)
    (ex : List (String × Json)) (p : String × Json) :
    Except PyErr (List (String × Json)) := do
  let prop_name := p.1
  let prop_details := p.2
  let hasEx ← pyContains prop_details "example"
  if hasEx then do
    let v ← pySubscript prop_details "example"
    pure (dictSet ex prop_name v)
  else do
    let prop_type ← propType prop_details
    if Json.beq prop_type (.str "string") then do
      let hasEnum ← pyContains prop_details "enum"
      if hasEnum then do
        let ev ← pySubscript prop_details "enum"
        let v0 ← pyIndex0 ev
        pure (dictSet ex prop_name v0)
      else
        pure (dictSet ex prop_name (.str ("<" ++ prop_name ++ ">")))
    else if Json.beq prop_type (.str "integer") then
      pure (dictSet ex prop_name (.int 0))
    else if Json.beq prop_type (.str "number") then
      pure (dictSet ex prop_name (.float 0))
    else if Json.beq prop_type (.str "boolean") then
      pure (dictSet ex prop_name (.bool false))
    else if Json.beq prop_type (.str "array") then do
      let items_schema ← dictGet prop_details "items" (.obj [])
      if pyTruthy items_schema then do
        let inner ← recur items_schema
        pure (dictSet ex prop_name (.arr [inner]))
      else
        pure (dictSet ex prop_name (.arr []))
    else if Json.beq prop_type (.str "object") then do
      let inner ← recur prop_details
      pure (dictSet ex prop_name inner)
    else
      pure ex

/-- Embedding of `_generate_example_body(schema)` (source lines 69-111).
The Python recursion is unbounded (a cyclic `$ref` chain through the
specification document diverges, hitting CPython's recursion limit), so the
embedding takes a fuel parameter; exhausted fuel is modelled as Python's
RecursionError. -/
def generate_example_body (spec : Json) : Nat → Json → Except PyErr Json
  | 0, _ => .error .recursionError
  | fuel + 1, schema0 => do
    let schema ← resolve_schema_ref spec schema0
    let properties ← dictGet schema "properties" (.obj [])
    let _required ← dictGet schema "required" (.arr [])
    let props ← pyItems properties
    let ex ← props.foldlM (genProp (generate_example_body spec fuel)) []
    pure (Json.obj ex)

/-! ## Endpoint auth policy (`_is_public_endpoint`, source lines 113-124) -/

/-- The fixed allowlist of public path prefixes (source lines 115-123). -/
def public_paths : List String :=
  ["/common/signup", "/common/login", "/common/verify", "/", "/docs",
   "/openapi.json", "/redoc"]

/-- Embedding of `_is_public_endpoint(path)` (source lines 113-124):
`any(path.startswith(public_path) for public_path in public_paths)`. -/
def is_public_endpoint (path : String) : Bool :=
  public_paths.any fun public_path => pyStartsWith path public_path

/-! ## Serialization (`json.dumps(example_body, indent=2)`, source line 227) -/

/-- Lowercase hex digit. -/
def hexDigit (n : Nat) : Char :=
  if n < 10 then Char.ofNat (48 + n) else Char.ofNat (87 + n)

/-- Four lowercase hex digits. -/
def hex4 (n : Nat) : String :=
  ⟨[hexDigit (n / 4096 % 16), hexDigit (n / 256 % 16), hexDigit (n / 16 % 16),
    hexDigit (n % 16)]⟩

/-- Escaping of one character inside a JSON string, matching Python
`json.dumps` with its default `ensure_ascii=True`: everything outside
`0x20..0x7e` becomes a `\uXXXX` escape (a surrogate pair above `0xffff`). -/
def jsonEscapeChar (c : Char) : String :=
  if c = '"' then "\\\""
  else if c = '\\' then "\\\\"
  else if c = '\n' then "\\n"
  else if c = '\t' then "\\t"
  else if c = '\r' then "\\r"
  else if c = Char.ofNat 8 then "\\b"
  else if c = Char.ofNat 12 then "\\f"
  else if c.toNat < 32 then "\\u" ++ hex4 c.toNat
  else if c.toNat < 127 then String.singleton c
  else if c.toNat ≤ 65535 then "\\u" ++ hex4 c.toNat
  else
    "\\u" ++ hex4 (55296 + (c.toNat - 65536) / 1024) ++
      "\\u" ++ hex4 (56320 + (c.toNat - 65536) % 1024)

/-- A JSON string literal as `json.dumps` renders it. -/
def jsonDumpStr (s : String) : String :=
  "\"" ++ String.join (s.data.map jsonEscapeChar) ++ "\""

/-- `indent=2` indentation for a nesting level. -/
def indentStr (n : Nat) : String := String.join (List.replicate n "  ")

/-- Python `repr` of a float.  Exact for floats with an integral value,
which covers every float the converter itself synthesizes (`0.0`); for
other rationals we fall back to the raw rational rendering. -/
def floatRepr (q : Rat) : String :=
  if q.den = 1 then toString q.num ++ ".0" else toString q

mutual
/-- Python `json.dumps(v, indent=2)` at a given nesting level (default
`ensure_ascii=True`, item separator `","` + newline, key separator `": "`). -/
def dumpsAux (lvl : Nat) : Json → String
  | .null => "null"
  | .bool true => "true"
  | .bool false => "false"
  | .int n => toString n
  | .float q => floatRepr q
  | .str s => jsonDumpStr s
  | .arr [] => "[]"
  | .arr xs =>
    "[\n" ++ String.intercalate ",\n" (dumpsItems (lvl + 1) xs) ++ "\n" ++
      indentStr lvl ++ "]"
  | .obj [] => "\x7b\x7d"
  | .obj kvs =>
    "\x7b\n" ++ String.intercalate ",\n" (dumpsEntries (lvl + 1) kvs) ++ "\n" ++
      indentStr lvl ++ "\x7d"

def dumpsItems (lvl : Nat) : List Json → List String
  | [] => []
  | x :: rest => (indentStr lvl ++ dumpsAux lvl x) :: dumpsItems lvl rest

def dumpsEntries (lvl : Nat) : List (String × Json) → List String
  | [] => []
  | (k, v) :: rest =>
    (indentStr lvl ++ jsonDumpStr k ++ ": " ++ dumpsAux lvl v) :: dumpsEntries lvl rest
end

/-- Python `json.dumps(v, indent=2)`. -/
def jsonDumps (v : Json) : String := dumpsAux 0 v

mutual
/-- Python `repr` of a JSON-shaped value (used through `str()` inside
f-strings when the value is not already a string).  String quoting inside
containers is simplified to plain single quotes; the converter only ever
formats scalars this way. -/
def pyRepr : Json → String
  | .null => "None"
  | .bool true => "True"
  | .bool false => "False"
  | .int n => toString n
  | .float q => floatRepr q
  | .str s => "\x27" ++ s ++ "\x27"
  | .arr xs => "[" ++ String.intercalate ", " (pyReprItems xs) ++ "]"
  | .obj kvs => "\x7b" ++ String.intercalate ", " (pyReprEntries kvs) ++ "\x7d"

def pyReprItems : List Json → List String
  | [] => []
  | x :: rest => pyRepr x :: pyReprItems rest

def pyReprEntries : List (String × Json) → List String
  | [] => []
  | (k, v) :: rest => ("\x27" ++ k ++ "\x27: " ++ pyRepr v) :: pyReprEntries rest
end

/-- Python `str()` as applied by f-string interpolation. -/
def pyStr : Json → String
  | .str s => s
  | v => pyRepr v

/-! ## Endpoint Mapper (`_convert_endpoint_to_postman`, source lines 126-307) -/

/-- The bearer auth block attached to non-public endpoints (source lines
158-167); the same literal is used as the collection-level default auth
(source lines 499-508). -/
def bearerAuthJson : Json :=
  .obj [("type", .str "bearer"),
        ("bearer", .arr [.obj [("key", .str "token"),
                               ("value", .str "\x7b\x7baccess_token\x7d\x7d"),
                               ("type", .str "string")]])]

/-- The explicit no-auth override attached to public endpoints (source
lines 170-172). -/
def noauthJson : Json :=
  .obj [("type", .str "noauth")]

/-- The constant Content-Type header entry (source lines 132-138). -/
def contentTypeHeader : Json :=
  .obj [("key", .str "Content-Type"), ("value", .str "application/json"),
        ("type", .str "text")]

/-! ## Lifecycle scripts emitted by the converter (opaque text payloads) -/

/-- The pre-request event attached to the `/common/verify` request item
(source lines 240-302): auto-fills the stored mobile number into the body. -/
def verifyPrerequestEvent : Json :=
  Json.obj [("listen", Json.str "prerequest"),
    ("script", Json.obj [("type", Json.str "text/javascript"),
      ("exec", Json.arr [
        Json.str "// Auto-fill mobile number from environment",
        Json.str "// This ensures the mobile from login is automatically used in verify request",
        Json.str "",
        Json.str "const savedMobile = pm.environment.get(\x27mobile\x27);",
        Json.str "",
        Json.str "if (savedMobile && savedMobile.trim() !== \x27\x27) \x7b",
        Json.str "    try \x7b",
        Json.str "        // Get current body - handle both string and object formats",
        Json.str "        let bodyText = pm.request.body ? pm.request.body.raw : \x27\x7b\x7d\x27;",
        Json.str "        if (!bodyText || bodyText.trim() === \x27\x27) \x7b",
        Json.str "            bodyText = \x27\x7b\"mobile\": \"\", \"otp\": \"1234\"\x7d\x27;",
        Json.str "        \x7d",
        Json.str "        ",
        Json.str "        // Replace \x7b\x7bmobile\x7d\x7d variable first",
        Json.str "        bodyText = bodyText.replace(/\\\x7b\\\x7bmobile\\\x7d\\\x7d/g, savedMobile);",
        Json.str "        ",
        Json.str "        // Parse JSON",
        Json.str "        let body = \x7b\x7d;",
        Json.str "        try \x7b",
        Json.str "            body = JSON.parse(bodyText);",
        Json.str "        \x7d catch (e) \x7b",
        Json.str "            // If parsing fails, create new body",
        Json.str "            body = \x7b mobile: savedMobile, otp: \x271234\x27 \x7d;",
        Json.str "        \x7d",
        Json.str "        ",
        Json.str "        // Force update mobile field",
        Json.str "        body.mobile = savedMobile;",
        Json.str "        ",
        Json.str "        // Ensure OTP is set",
        Json.str "        if (!body.otp) \x7b",
        Json.str "            body.otp = \x271234\x27;",
        Json.str "        \x7d",
        Json.str "        ",
        Json.str "        // Update request body - use the correct method",
        Json.str "        const updatedBody = JSON.stringify(body, null, 2);",
        Json.str "        pm.request.body.update(\x7b",
        Json.str "            mode: \x27raw\x27,",
        Json.str "            raw: updatedBody,",
        Json.str "            options: \x7b raw: \x7b language: \x27json\x27 \x7d \x7d",
        Json.str "        \x7d);",
        Json.str "        ",
        Json.str "        console.log(\x60✅ Auto-filled mobile number: $\x7bsavedMobile\x7d\x60);",
        Json.str "        console.log(\x60✅ Request body updated successfully\x60);",
        Json.str "        console.log(\x60✅ Verify request ready - OTP is pre-filled as 1234\x60);",
        Json.str "    \x7d catch (e) \x7b",
        Json.str "        console.log(\x27❌ Error auto-filling mobile:\x27, e.message);",
        Json.str "        console.log(\x27Stack:\x27, e.stack);",
        Json.str "        console.log(\x27ℹ️  Please enter mobile number manually\x27);",
        Json.str "    \x7d",
        Json.str "\x7d else \x7b",
        Json.str "    console.log(\x27⚠️  WARNING: No mobile number found in environment!\x27);",
        Json.str "    console.log(\x27⚠️  Please call /common/login first to save mobile number\x27);",
        Json.str "    console.log(\x27ℹ️  Current environment:\x27, pm.environment.name);",
        Json.str "    console.log(\x27ℹ️  Available variables:\x27, Object.keys(pm.environment.toObject()));",
        Json.str "\x7d"])])]

/-- The collection-level pre-request hook (token validation), source lines 312-356. -/
def collectionPrerequestScript : Json :=
  Json.obj [("listen", Json.str "prerequest"),
    ("script", Json.obj [("type", Json.str "text/javascript"),
      ("exec", Json.arr [
        Json.str "// Pre-request Script: Token Validation and Bearer Auth Setup",
        Json.str "// This script runs before every request in the collection",
        Json.str "",
        Json.str "const token = pm.environment.get(\x27access_token\x27);",
        Json.str "const tokenExpiry = pm.environment.get(\x27token_expiry\x27);",
        Json.str "const requestUrl = pm.request.url.toString();",
        Json.str "const isPublicEndpoint = requestUrl.includes(\x27/common/login\x27) || ",
        Json.str "                          requestUrl.includes(\x27/common/verify\x27) || ",
        Json.str "                          requestUrl.includes(\x27/common/signup\x27) || ",
        Json.str "                          requestUrl === pm.environment.get(\x27base_url\x27) + \x27/\x27 || ",
        Json.str "                          requestUrl.includes(\x27/docs\x27) || ",
        Json.str "                          requestUrl.includes(\x27/openapi.json\x27);",
        Json.str "",
        Json.str "// Only check token for non-public endpoints",
        Json.str "if (!isPublicEndpoint) \x7b",
        Json.str "    if (!token || token.trim() === \x27\x27) \x7b",
        Json.str "        console.log(\x27⚠️  WARNING: No access token found!\x27);",
        Json.str "        console.log(\x27⚠️  This request may fail with 401 Unauthorized\x27);",
        Json.str "        console.log(\x27⚠️  Please login first using /common/login → /common/verify\x27);",
        Json.str "    \x7d else if (tokenExpiry && Date.now() > parseInt(tokenExpiry)) \x7b",
        Json.str "        console.log(\x27⚠️  WARNING: Access token has expired!\x27);",
        Json.str "        console.log(\x27⚠️  Please login again using /common/login → /common/verify\x27);",
        Json.str "        pm.environment.set(\x27access_token\x27, \x27\x27);",
        Json.str "    \x7d else \x7b",
        Json.str "        // Verify bearer auth is configured",
        Json.str "        const auth = pm.request.auth;",
        Json.str "        if (auth && auth.type === \x27bearer\x27) \x7b",
        Json.str "            console.log(\x27✅ Bearer token will be sent in Authorization header\x27);",
        Json.str "            console.log(\x60✅ Token length: $\x7btoken.length\x7d characters\x60);",
        Json.str "        \x7d else \x7b",
        Json.str "            console.log(\x27⚠️  WARNING: Bearer auth not configured for this request!\x27);",
        Json.str "            console.log(\x27⚠️  Token exists but may not be forwarded to API\x27);",
        Json.str "        \x7d",
        Json.str "    \x7d",
        Json.str "\x7d else \x7b",
        Json.str "    console.log(\x27ℹ️  Public endpoint - no authentication required\x27);",
        Json.str "\x7d"])])]

/-- The collection-level test hook (auto-save token/role/mobile), source lines 357-477. -/
def collectionTestScript : Json :=
  Json.obj [("listen", Json.str "test"),
    ("script", Json.obj [("type", Json.str "text/javascript"),
      ("exec", Json.arr [
        Json.str "// Test Script: Auto-save Authentication Token and Role",
        Json.str "// This script runs after every response in the collection",
        Json.str "",
        Json.str "if (pm.response.code === 200) \x7b",
        Json.str "    try \x7b",
        Json.str "        const response = pm.response.json();",
        Json.str "        const requestUrl = pm.request.url.toString();",
        Json.str "        let tokenSaved = false;",
        Json.str "        let roleSaved = false;",
        Json.str "        ",
        Json.str "        // Helper function to extract token from various locations",
        Json.str "        function extractToken(obj) \x7b",
        Json.str "            if (!obj) return null;",
        Json.str "            return obj.access_token || obj.token || obj.accessToken || null;",
        Json.str "        \x7d",
        Json.str "        ",
        Json.str "        // Helper function to extract role from various locations",
        Json.str "        function extractRole(obj) \x7b",
        Json.str "            if (!obj) return null;",
        Json.str "            return obj.role || null;",
        Json.str "        \x7d",
        Json.str "        ",
        Json.str "        // Try to extract access_token from multiple possible locations",
        Json.str "        let accessToken = extractToken(response) || extractToken(response.data) || extractToken(response.result);",
        Json.str "        ",
        Json.str "        if (accessToken) \x7b",
        Json.str "            pm.environment.set(\x27access_token\x27, accessToken);",
        Json.str "            tokenSaved = true;",
        Json.str "            ",
        Json.str "            // Set token expiry (default: 24 hours)",
        Json.str "            const expiryTime = Date.now() + (24 * 60 * 60 * 1000);",
        Json.str "            pm.environment.set(\x27token_expiry\x27, expiryTime.toString());",
        Json.str "            ",
        Json.str "            console.log(\x27✅ Access token saved to environment\x27);",
        Json.str "            console.log(\x27✅ Token expiry set to 24 hours from now\x27);",
        Json.str "        \x7d",
        Json.str "        ",
        Json.str "        // Extract and save role (especially from /common/verify endpoint)",
        Json.str "        let role = extractRole(response) || extractRole(response.data) || extractRole(response.result);",
        Json.str "        ",
        Json.str "        if (role) \x7b",
        Json.str "            // Normalize role to lowercase",
        Json.str "            role = role.toLowerCase();",
        Json.str "            pm.environment.set(\x27role\x27, role);",
        Json.str "            roleSaved = true;",
        Json.str "            console.log(\x60✅ Role saved to environment: $\x7brole\x7d\x60);",
        Json.str "            ",
        Json.str "            // Log which environment should be used",
        Json.str "            const currentEnv = pm.environment.name || \x27current environment\x27;",
        Json.str "            if (currentEnv.toLowerCase().includes(role)) \x7b",
        Json.str "                console.log(\x60✅ Token saved to correct environment: $\x7bcurrentEnv\x7d\x60);",
        Json.str "            \x7d else \x7b",
        Json.str "                console.log(\x60⚠️  Warning: Role is \x27$\x7brole\x7d\x27 but current environment is \x27$\x7bcurrentEnv\x7d\x27\x60);",
        Json.str "                console.log(\x60   Consider switching to $\x7brole\x7d environment\x60);",
        Json.str "            \x7d",
        Json.str "        \x7d",
        Json.str "        ",
        Json.str "        // Auto-save user_id if present",
        Json.str "        if (response.user_id) \x7b",
        Json.str "            pm.environment.set(\x27user_id\x27, response.user_id.toString());",
        Json.str "            console.log(\x27✅ User ID saved to environment\x27);",
        Json.str "        \x7d else if (response.data && response.data.user_id) \x7b",
        Json.str "            pm.environment.set(\x27user_id\x27, response.data.user_id.toString());",
        Json.str "            console.log(\x27✅ User ID saved from data field\x27);",
        Json.str "        \x7d",
        Json.str "        ",
        Json.str "        // Save mobile number from /common/login request",
        Json.str "        if (requestUrl.includes(\x27/common/login\x27)) \x7b",
        Json.str "            try \x7b",
        Json.str "                const requestBody = pm.request.body.raw;",
        Json.str "                if (requestBody) \x7b",
        Json.str "                    const loginData = JSON.parse(requestBody);",
        Json.str "                    if (loginData.mobile) \x7b",
        Json.str "                        const mobileValue = loginData.mobile.toString().trim();",
        Json.str "                        pm.environment.set(\x27mobile\x27, mobileValue);",
        Json.str "                        console.log(\x60✅ Mobile number saved to environment: $\x7bmobileValue\x7d\x60);",
        Json.str "                        console.log(\x60✅ This mobile will be auto-filled in verify request\x60);",
        Json.str "                        console.log(\x60✅ You can now call /common/verify without entering mobile\x60);",
        Json.str "                    \x7d else \x7b",
        Json.str "                        console.log(\x27⚠️  No mobile field found in login request body\x27);",
        Json.str "                    \x7d",
        Json.str "                \x7d else \x7b",
        Json.str "                    console.log(\x27⚠️  Login request body is empty\x27);",
        Json.str "                \x7d",
        Json.str "            \x7d catch (e) \x7b",
        Json.str "                console.log(\x27⚠️  Could not parse login request body:\x27, e.message);",
        Json.str "            \x7d",
        Json.str "        \x7d",
        Json.str "        ",
        Json.str "        // Special handling for /common/verify endpoint",
        Json.str "        if (requestUrl.includes(\x27/common/verify\x27)) \x7b",
        Json.str "            if (tokenSaved) \x7b",
        Json.str "                console.log(\x27🎉 Login successful! Bearer token is ready to use.\x27);",
        Json.str "                if (roleSaved) \x7b",
        Json.str "                    console.log(\x60🎉 Role detected: $\x7brole\x7d. Make sure you\x27re using the $\x7brole\x7d environment.\x60);",
        Json.str "                \x7d",
        Json.str "            \x7d else \x7b",
        Json.str "                console.log(\x27⚠️  Warning: /common/verify response received but no access_token found\x27);",
        Json.str "                console.log(\x27Response structure:\x27, JSON.stringify(response, null, 2));",
        Json.str "            \x7d",
        Json.str "        \x7d",
        Json.str "        ",
        Json.str "        // Log if no token found but response is successful",
        Json.str "        if (!tokenSaved && requestUrl.includes(\x27/common/verify\x27)) \x7b",
        Json.str "            console.log(\x27⚠️  No access_token found in verify response\x27);",
        Json.str "            console.log(\x27Response keys:\x27, Object.keys(response));",
        Json.str "        \x7d",
        Json.str "    \x7d catch (e) \x7b",
        Json.str "        console.log(\x27❌ Error parsing response:\x27, e.message);",
        Json.str "        console.log(\x27Response text:\x27, pm.response.text());",
        Json.str "    \x7d",
        Json.str "\x7d"])])]

/-- `_create_collection_scripts` (source lines 309-477): the two collection-level
lifecycle hooks. -/
def create_collection_scripts : List Json :=
  [collectionPrerequestScript, collectionTestScript]

/-- Embedding of `_convert_endpoint_to_postman(path, method, details)`
(source lines 126-307).  Mutating steps of the Python code (inserting
`description`, `auth`, `query`, `variable`, `body`, `event`, `response`
into the freshly-built dicts) are rendered by assembling each dict with
its entries in the final insertion order; the order of the fallible
operations matches the source, so the first raising operation decides the
error. -/
def convert_endpoint_to_postman (spec : Json) (fuel : Nat)
    (path method : String) (details : Json) : Except PyErr Json := do
  let name ← dictGet details "summary" (.str (pyUpper method ++ " " ++ path))
  let descVal ← dictGet1 details "description"
  let auth := if is_public_endpoint path then noauthJson else bearerAuthJson
  let hasParams ← pyContains details "parameters"
  let qpv ← (if hasParams then do
      let params ← pySubscript details "parameters"
      let plist ← pyIter params
      plist.foldlM
        (fun (acc : List Json × List Json) param => do
          let param_in ← dictGet1 param "in"
          let param_name ← dictGet1 param "name"
          let param_desc ← dictGet param "description" (.str "")
          let param_required ← dictGet param "required" (.bool false)
          if Json.beq param_in (.str "query") then
            pure (acc.1 ++ [Json.obj [("key", param_name), ("value", Json.str ""),
              ("description", param_desc),
              ("disabled", Json.bool (!pyTruthy param_required))]], acc.2)
          else if Json.beq param_in (.str "path") then
            pure (acc.1, acc.2 ++ [Json.obj [("key", param_name), ("value", Json.str ""),
              ("description", param_desc)]])
          else
            pure acc)
        (([], []) : List Json × List Json)
    else pure (([], []) : List Json × List Json))
  let hasBody ← pyContains details "requestBody"
  let bodyOpt ← (if hasBody then do
      let request_body ← pySubscript details "requestBody"
      let content ← dictGet request_body "content" (.obj [])
      let hasJsonContent ← pyContains content "application/json"
      if hasJsonContent then do
        let json_content ← pySubscript content "application/json"
        let schema ← dictGet json_content "schema" (.obj [])
        if pyTruthy schema then do
          let example_body ← generate_example_body spec fuel schema
          let example_body ← (if path = "/common/verify" then do
              let hasMobile ← pyContains example_body "mobile"
              let eb1 ← (if hasMobile then
                  pySetItem example_body "mobile" (.str "\x7b\x7bmobile\x7d\x7d")
                else pure example_body)
              let hasOtp ← pyContains eb1 "otp"
              if hasOtp then pySetItem eb1 "otp" (.str "1234") else pure eb1
            else pure example_body)
          pure (some (Json.obj [("mode", Json.str "raw"),
            ("raw", Json.str (jsonDumps example_body)),
            ("options", Json.obj [("raw", Json.obj [("language", Json.str "json")])])]))
        else pure none
      else pure none
    else pure (none : Option Json))
  let urlEntries :=
    [("raw", Json.str ("\x7b\x7bbase_url\x7d\x7d" ++ path)),
     ("host", Json.arr [Json.str "\x7b\x7bbase_url\x7d\x7d"]),
     ("path", Json.arr (((pySplitSlash path).filter fun p => p != "").map Json.str))]
    ++ (if qpv.1.isEmpty then [] else [("query", Json.arr qpv.1)])
    ++ (if qpv.2.isEmpty then [] else [("variable", Json.arr qpv.2)])
  let requestEntries :=
    [("method", Json.str (pyUpper method)), ("header", Json.arr [contentTypeHeader]),
     ("url", Json.obj urlEntries)]
    ++ (if pyTruthy descVal then [("description", descVal)] else [])
    ++ [("auth", auth)]
    ++ (match bodyOpt with | some b => [("body", b)] | none => ([] : List (String × Json)))
  let itemEntries :=
    [("name", name), ("request", Json.obj requestEntries)]
    ++ (if path = "/common/verify" then [("event", Json.arr [verifyPrerequestEvent])]
        else ([] : List (String × Json)))
    ++ [("response", Json.arr [])]
  pure (Json.obj itemEntries)

/-! ## Collection Assembler (`convert_to_postman`, source lines 479-549) -/

/-- The standard HTTP verb set the assembler recognizes (source line 526). -/
def httpVerbs : List String :=
  ["get", "post", "put", "delete", "patch", "options", "head"]

/-- Append a request item to the tag group keyed by `tag`, creating the
group at the end when absent (source lines 534-542; the `{"name", "item"}`
wrapper dict is reattached in `convert_to_postman`). -/
def addToGroup (tgs : List (Json × List Json)) (tag : Json) (item : Json) :
    List (Json × List Json) :=
  match tgs with
  | [] => [(tag, [item])]
  | (t, its) :: rest =>
    if Json.beq t tag then (t, its ++ [item]) :: rest
    else (t, its) :: addToGroup rest tag item

/-- The inner loop of `convert_to_postman` over the methods of one path
(source lines 524-543): skip unrecognized method tokens, read the first
tag (default `"Default"`), convert the endpoint and place it in its tag
group. -/
def processMethods (spec : Json) (fuel : Nat) (path : String) :
    List (String × Json) → List (Json × List Json) →
      Except PyErr (List (Json × List Json))
  | [], tgs => .ok tgs
  | (method, details) :: rest, tgs => do
    if httpVerbs.contains (pyLower method) then do
      let tags ← dictGet details "tags" (.arr [.str "Default"])
      let tag ← if pyTruthy tags then pyIndex0 tags else pure (Json.str "Default")
      let _ ← pyHashable tag
      let item ← convert_endpoint_to_postman spec fuel path method details
      processMethods spec fuel path rest (addToGroup tgs tag item)
    else
      processMethods spec fuel path rest tgs

/-- The outer loop of `convert_to_postman` over all paths (source line
523). -/
def processPaths (spec : Json) (fuel : Nat) :
    List (String × Json) → List (Json × List Json) →
      Except PyErr (List (Json × List Json))
  | [], tgs => .ok tgs
  | (path, methods) :: rest, tgs => do
    let ms ← pyItems methods
    let tgs' ← processMethods spec fuel path ms tgs
    processPaths spec fuel rest tgs'

/-- Embedding of `convert_to_postman()` (source lines 479-549), taking the
loaded specification document and the configured `base_url` as inputs and
returning the assembled collection document. -/
def convert_to_postman (spec : Json) (fuel : Nat) (base_url : String) :
    Except PyErr Json := do
  let info ← dictGet spec "info" (.obj [])
  let paths ← dictGet spec "paths" (.obj [])
  let name ← dictGet info "title" (.str "API Collection")
  let descr ← dictGet info "description" (.str "Imported from OpenAPI specification")
  let pitems ← pyItems paths
  let tgs ← processPaths spec fuel pitems []
  let groups := tgs.map fun tg => Json.obj [("name", tg.1), ("item", Json.arr tg.2)]
  pure (Json.obj
    [("info", Json.obj
       [("name", name), ("description", descr),
        ("schema", Json.str "https://schema.getpostman.com/json/collection/v2.1.0/collection.json"),
        ("_exporter_id", Json.str "openapi-converter")]),
     ("item", Json.arr groups),
     ("auth", bearerAuthJson),
     ("event", Json.arr create_collection_scripts),
     ("variable", Json.arr [Json.obj [("key", Json.str "base_url"),
       ("value", Json.str base_url), ("type", Json.str "string")]])])

/-! ## Environment Generator (`generate_environments`, source lines 551-612) -/

/-- The fixed role list (source line 560). -/
def rolesList : List String := ["Admin", "Teacher", "Student"]

/-- One generated environment document (source lines 564-608). -/
def mkEnvironment (api_title : Json) (base_url : String) (role : String) : Json :=
  .obj [("id", .str ("auto-generated-env-" ++ pyLower role)),
        ("name", .str (pyStr api_title ++ " Environment (" ++ role ++ ")")),
        ("values", .arr
          [.obj [("key", .str "base_url"), ("value", .str base_url),
                 ("type", .str "default"), ("enabled", .bool true)],
           .obj [("key", .str "access_token"), ("value", .str ""),
                 ("type", .str "secret"), ("enabled", .bool true)],
           .obj [("key", .str "token_expiry"), ("value", .str ""),
                 ("type", .str "default"), ("enabled", .bool true)],
           .obj [("key", .str "user_id"), ("value", .str ""),
                 ("type", .str "default"), ("enabled", .bool true)],
           .obj [("key", .str "role"), ("value", .str (pyLower role)),
                 ("type", .str "default"), ("enabled", .bool true)],
           .obj [("key", .str "mobile"), ("value", .str ""),
                 ("type", .str "default"), ("enabled", .bool true)]]),
        ("_postman_variable_scope", .str "environment"),
        ("_postman_exported_at", .str ""),
        ("_postman_exported_using", .str "OpenAPI to Postman Converter")]

/-- Embedding of `generate_environments()` (source lines 551-612): reads
the API title from the specification document and produces one environment
document per role. -/
def generate_environments (spec : Json) (base_url : String) :
    Except PyErr (List Json) := do
  let info ← dictGet spec "info" (.obj [])
  let api_title ← dictGet info "title" (.str "API")
  pure (rolesList.map (mkEnvironment api_title base_url))

/-! ## Infrastructure: soundness of `Json.beq`, decidable equality -/

mutual
theorem Json.eq_of_beq : ∀ (a b : Json), Json.beq a b = true → a = b
  | .null, b => by cases b <;> simp [Json.beq]
  | .bool x, b => by cases b <;> simp [Json.beq]
  | .int x, b => by cases b <;> simp [Json.beq]
  | .float x, b => by cases b <;> simp [Json.beq]
  | .str x, b => by cases b <;> simp [Json.beq]
  | .arr xs, b => by
    cases b <;> simp [Json.beq]
    exact fun h => Json.eqList_of_beq xs _ h
  | .obj kvs, b => by
    cases b <;> simp [Json.beq]
    exact fun h => Json.eqObj_of_beq kvs _ h

theorem Json.eqList_of_beq : ∀ (xs ys : List Json), Json.beqList xs ys = true → xs = ys
  | [], ys => by cases ys <;> simp [Json.beqList]
  | x :: xs, ys => by
    cases ys with
    | nil => simp [Json.beqList]
    | cons y ys =>
      simp only [Json.beqList, Bool.and_eq_true]
      rintro ⟨h1, h2⟩
      rw [Json.eq_of_beq x y h1, Json.eqList_of_beq xs ys h2]

theorem Json.eqObj_of_beq :
    ∀ (xs ys : List (String × Json)), Json.beqObj xs ys = true → xs = ys
  | [], ys => by cases ys <;> simp [Json.beqObj]
  | (k1, v1) :: xs, ys => by
    cases ys with
    | nil => simp [Json.beqObj]
    | cons y ys =>
      obtain ⟨k2, v2⟩ := y
      simp only [Json.beqObj, Bool.and_eq_true, beq_iff_eq]
      rintro ⟨⟨h0, h1⟩, h2⟩
      rw [h0, Json.eq_of_beq v1 v2 h1, Json.eqObj_of_beq xs ys h2]
end

mutual
theorem Json.beq_refl : ∀ (a : Json), Json.beq a a = true
  | .null => rfl
  | .bool x => by simp [Json.beq]
  | .int x => by simp [Json.beq]
  | .float x => by simp [Json.beq]
  | .str x => by simp [Json.beq]
  | .arr xs => Json.beqList_refl xs
  | .obj kvs => Json.beqObj_refl kvs

theorem Json.beqList_refl : ∀ (xs : List Json), Json.beqList xs xs = true
  | [] => rfl
  | x :: xs => by
    simp only [Json.beqList, Bool.and_eq_true]
    exact ⟨Json.beq_refl x, Json.beqList_refl xs⟩

theorem Json.beqObj_refl : ∀ (xs : List (String × Json)), Json.beqObj xs xs = true
  | [] => rfl
  | (k, v) :: xs => by
    simp only [Json.beqObj, Bool.and_eq_true, beq_iff_eq]
    exact ⟨⟨trivial, Json.beq_refl v⟩, Json.beqObj_refl xs⟩
end

instance : LawfulBEq Json where
  eq_of_beq h := Json.eq_of_beq _ _ h
  rfl := Json.beq_refl _

instance : DecidableEq Json := fun a b =>
  decidable_of_iff (Json.beq a b = true)
    ⟨Json.eq_of_beq a b, fun h => h ▸ Json.beq_refl a⟩

theorem Json.beq_eq_false_of_ne {a b : Json} (h : a ≠ b) : Json.beq a b = false := by
  cases hb : Json.beq a b with
  | false => rfl
  | true => exact absurd (Json.eq_of_beq a b hb) h

/-! ## Infrastructure: small lemmas about the Python-dict helpers -/

theorem Except.bind_ok_iff {α β : Type} {m : Except PyErr α} {f : α → Except PyErr β}
    {v : β} : (m >>= f) = .ok v ↔ ∃ a, m = .ok a ∧ f a = .ok v := by
  cases m with
  | error e => simp [Bind.bind, Except.bind]
  | ok a => simp [Bind.bind, Except.bind]

theorem lookupKey_eraseKey (kvs : List (String × Json)) (k k' : String) (h : k' ≠ k) :
    lookupKey (eraseKey kvs k) k' = lookupKey kvs k' := by
  induction kvs with
  | nil => rfl
  | cons kv rest ih =>
    obtain ⟨k0, v0⟩ := kv
    by_cases h0 : k0 = k
    · subst h0
      have hk : ¬ (k0 = k') := fun hh => h hh.symm
      simp [eraseKey, lookupKey, hk, ih]
    · simp only [eraseKey, if_neg h0, lookupKey]
      by_cases h1 : k0 = k'
      · simp [h1]
      · simp [h1, ih]

/-! ## Statement-side definitions used by the claim theorems -/

/-- Modelled from the spec (section 4.1 wording): the total pointer walk that
"walks the Specification Document from its root following each path segment
after the leading marker, returning the mapping found at that location, or
an empty mapping if any segment is absent".  Used to compare the code's
walk against the spec's description. -/
def specResolveWalk : Json → List String → Json
  | doc, [] => doc
  | doc, s :: rest =>
    if s = "#" then specResolveWalk doc rest
    else
      match doc with
      | .obj kvs => specResolveWalk ((lookupKey kvs s).getD (.obj [])) rest
      | _ => specResolveWalk (.obj []) rest

/-- Does the code's pointer walk stay within mappings (never calling `.get`
on a non-dict)? -/
def walkOk : Json → List String → Bool
  | _, [] => true
  | doc, s :: rest =>
    if s = "#" then walkOk doc rest
    else
      match doc with
      | .obj kvs => walkOk ((lookupKey kvs s).getD (.obj [])) rest
      | _ => false

/-- Is the value a mapping? -/
def isObjJson : Json → Bool
  | .obj _ => true
  | _ => false

/-- Did the embedded computation return normally (no exception)? -/
def exceptIsOk : Except PyErr Json → Bool
  | .ok _ => true
  | .error _ => false

/-- The `values` array of an environment document. -/
def envValues (env : Json) : Option Json :=
  match env with
  | .obj kvs => lookupKey kvs "values"
  | _ => none

/-- A field of a variable record. -/
def recordField (rec : Json) (field : String) : Option Json :=
  match rec with
  | .obj kvs => lookupKey kvs field
  | _ => none

/-- Null out the `value` of the `role` variable record (comparison device:
the part of an environment the role legitimately changes). -/
def scrubRecord (rec : Json) : Json :=
  if recordField rec "key" = some (.str "role") then
    match rec with
    | .obj rkvs => .obj (dictSet rkvs "value" .null)
    | v => v
  else rec

/-- Strip an environment document down to its role-independent content:
drop the `id` and `name` fields and null out the `role` record's value. -/
def scrubEnv (env : Json) : Json :=
  match env with
  | .obj kvs =>
    .obj ((eraseKey (eraseKey kvs "id") "name").map fun kv =>
      if kv.1 = "values" then
        (kv.1, match kv.2 with
          | .arr recs => Json.arr (recs.map scrubRecord)
          | v => v)
      else kv)
  | v => v

/-- The POST `/widgets` operation of the section 8 end-to-end scenario:
tagged `Widgets`, an explicit (non-empty) `security` field, and a JSON body
schema with a string `name` and integer `qty`. -/
def widgetsPostDetails : Json :=
  .obj [("tags", .arr [.str "Widgets"]),
        ("security", .arr [.obj [("bearerAuth", .arr [])]]),
        ("requestBody", .obj [("content", .obj [("application/json", .obj [("schema",
          .obj [("properties", .obj [("name", .obj [("type", .str "string")]),
                                     ("qty", .obj [("type", .str "integer")])])])])])])]

/-- The auth block of a produced request item. -/
def requestAuthOf (r : Except PyErr Json) : Option Json :=
  match r with
  | .ok (.obj kvs) =>
    match lookupKey kvs "request" with
    | some (.obj rkvs) => lookupKey rkvs "auth"
    | _ => none
  | _ => none

/-- Total number of request items held across a list of tag groups. -/
def sumSizes (tgs : List (Json × List Json)) : Nat :=
  (tgs.map fun tg => tg.2.length).sum

/-- Number of method entries of one path whose lower-cased token is a
standard HTTP verb. -/
def countMethods (ms : List (String × Json)) : Nat :=
  (ms.filter fun m => httpVerbs.contains (pyLower m.1)).length

/-- Number of (path, recognized-method) pairs across all paths. -/
def countPathsPairs (ps : List (String × Json)) : Nat :=
  (ps.map fun p =>
    match p.2 with
    | .obj ms => countMethods ms
    | _ => 0).sum

/-- Number of request items in one tag-group node of a collection. -/
def groupItemCount (g : Json) : Nat :=
  match g with
  | .obj gkvs =>
    match lookupKey gkvs "item" with
    | some (.arr its) => its.length
    | _ => 0
  | _ => 0

/-- Total number of request items across all tag groups of a collection
document. -/
def totalItems (coll : Json) : Nat :=
  match coll with
  | .obj kvs =>
    match lookupKey kvs "item" with
    | some (.arr groups) => (groups.map groupItemCount).sum
    | _ => 0
  | _ => 0

/-- Number of (path, recognized-method) pairs of a specification document,
as the claim counts them. -/
def countRecognized (spec : Json) : Nat :=
  match spec with
  | .obj kvs =>
    match (lookupKey kvs "paths").getD (.obj []) with
    | .obj ps => countPathsPairs ps
    | _ => 0
  | _ => 0

/-- A small concrete specification document: one path with a GET, a POST
carrying a JSON body schema, and an unrecognized vendor-extension token. -/
def widgetsSpec : Json :=
  .obj [("info", .obj [("title", .str "Widget API")]),
        ("paths", .obj [("/widgets", .obj
          [("get", .obj [("tags", .arr [.str "Widgets"])]),
           ("post", .obj [("tags", .arr [.str "Widgets"]),
             ("requestBody", .obj [("content", .obj [("application/json",
               .obj [("schema", .obj [("properties", .obj
                 [("name", .obj [("type", .str "string")]),
                  ("qty", .obj [("type", .str "integer")])])])])])])]),
           ("x-vendor-ext", .str "skipped")])])]

/-- A concrete specification document for the environment generator. -/
def envSpec : Json := .obj [("info", .obj [("title", .str "Widget API")])]

/-- The environments the generator produces for `envSpec`. -/
def envSpecEnvs : List Json :=
  rolesList.map (mkEnvironment (.str "Widget API") "http://localhost")

/-! ## Infrastructure lemmas for the claim proofs -/

theorem collectAnyOfTypes_no_type (acc : List Json) (xk : List (String × Json))
    (h : lookupKey xk "type" = none) : collectAnyOfTypes acc (.obj xk) = .ok acc := by
  simp [collectAnyOfTypes, pyContains, h, Bind.bind, Except.bind, Pure.pure, Except.pure]

theorem collectAnyOfTypes_with_type (acc : List Json) (xk : List (String × Json))
    (tv : Json) (h : lookupKey xk "type" = some tv) :
    collectAnyOfTypes acc (.obj xk) = .ok (acc ++ [tv]) := by
  simp [collectAnyOfTypes, pyContains, dictGet1, dictGet, h, Bind.bind, Except.bind,
    Pure.pure, Except.pure]

theorem foldl_collect_no_type :
    ∀ (l : List Json), (∀ x ∈ l, ∃ xk, x = Json.obj xk ∧ lookupKey xk "type" = none) →
    ∀ acc, l.foldlM collectAnyOfTypes acc = .ok acc
  | [], _, acc => rfl
  | x :: xs, h, acc => by
    obtain ⟨xk, hx, hnone⟩ := h x (List.mem_cons_self x xs)
    subst hx
    rw [List.foldlM_cons, collectAnyOfTypes_no_type acc xk hnone]
    simp only [Bind.bind, Except.bind]
    exact foldl_collect_no_type xs (fun y hy => h y (List.mem_cons_of_mem _ hy)) acc

theorem foldl_collect_all_obj :
    ∀ (l : List Json), (∀ x ∈ l, ∃ xk, x = Json.obj xk) →
    ∀ acc, ∃ ts, l.foldlM collectAnyOfTypes acc = .ok (acc ++ ts)
  | [], _, acc => ⟨[], by simp [Pure.pure, Except.pure]⟩
  | x :: xs, h, acc => by
    obtain ⟨xk, hx⟩ := h x (List.mem_cons_self x xs)
    subst hx
    have hrest : ∀ y ∈ xs, ∃ yk, y = Json.obj yk :=
      fun y hy => h y (List.mem_cons_of_mem _ hy)
    cases htype : lookupKey xk "type" with
    | none =>
      obtain ⟨ts, hts⟩ := foldl_collect_all_obj xs hrest acc
      refine ⟨ts, ?_⟩
      rw [List.foldlM_cons, collectAnyOfTypes_no_type acc xk htype]
      simpa [Bind.bind, Except.bind] using hts
    | some tv =>
      obtain ⟨ts, hts⟩ := foldl_collect_all_obj xs hrest (acc ++ [tv])
      refine ⟨[tv] ++ ts, ?_⟩
      rw [List.foldlM_cons, collectAnyOfTypes_with_type acc xk tv htype]
      simpa [Bind.bind, Except.bind] using hts

theorem walkSegs_nil (doc : Json) : walkSegs doc [] = .ok doc := rfl

theorem walkSegs_cons (doc : Json) (s : String) (rest : List String) :
    walkSegs doc (s :: rest) =
      (if s = "#" then pure doc else dictGet doc s (.obj [])) >>= fun d =>
        walkSegs d rest := by
  simp [walkSegs, List.foldlM_cons]

theorem groupItemCount_mk (t : Json) (its : List Json) :
    groupItemCount (Json.obj [("name", t), ("item", Json.arr its)]) = its.length := by
  simp [groupItemCount, lookupKey]

theorem sumSizes_nil : sumSizes [] = 0 := rfl

theorem sum_group (tgs : List (Json × List Json)) :
    ((tgs.map fun tg => Json.obj [("name", tg.1), ("item", Json.arr tg.2)]).map
      groupItemCount).sum = sumSizes tgs := by
  induction tgs with
  | nil => rfl
  | cons tg rest ih =>
    simp only [List.map_cons, List.sum_cons, groupItemCount_mk, ih, sumSizes]

theorem totalItems_assembled (x a ev vr : Json) (tgs : List (Json × List Json)) :
    totalItems (Json.obj
      [("info", x),
       ("item", Json.arr (tgs.map fun tg => Json.obj [("name", tg.1), ("item", Json.arr tg.2)])),
       ("auth", a), ("event", ev), ("variable", vr)]) = sumSizes tgs := by
  have := sum_group tgs
  simpa [totalItems, lookupKey] using this

theorem sumSizes_addToGroup (tgs : List (Json × List Json)) (tag item : Json) :
    sumSizes (addToGroup tgs tag item) = sumSizes tgs + 1 := by
  induction tgs with
  | nil => simp [addToGroup, sumSizes]
  | cons tg rest ih =>
    obtain ⟨t, its⟩ := tg
    cases h : Json.beq t tag with
    | true => simp [addToGroup, h, sumSizes]; omega
    | false =>
      simp only [addToGroup, h, Bool.false_eq_true, if_false, sumSizes, List.map_cons,
        List.sum_cons] at *
      omega

theorem processMethods_count (spec : Json) (fuel : Nat) (path : String) :
    ∀ (ms : List (String × Json)) (tgs tgs' : List (Json × List Json)),
      processMethods spec fuel path ms tgs = .ok tgs' →
      sumSizes tgs' = sumSizes tgs + countMethods ms := by
  intro ms
  induction ms with
  | nil =>
    intro tgs tgs' h
    simp only [processMethods] at h
    cases h
    simp [countMethods]
  | cons m rest ih =>
    intro tgs tgs' h
    obtain ⟨method, details⟩ := m
    cases hrec : httpVerbs.contains (pyLower method) with
    | false =>
      simp only [processMethods, hrec, Bool.false_eq_true, if_false] at h
      rw [ih tgs tgs' h]
      simp only [countMethods, List.filter_cons, hrec, Bool.false_eq_true, if_false]
    | true =>
      simp only [processMethods, hrec, if_true] at h
      rw [Except.bind_ok_iff] at h
      obtain ⟨tags, htags, h⟩ := h
      have key : ∀ tag,
          (pyHashable tag >>= fun _ =>
            convert_endpoint_to_postman spec fuel path method details >>= fun item =>
              processMethods spec fuel path rest (addToGroup tgs tag item)) = .ok tgs' →
          sumSizes tgs' = sumSizes tgs + 1 + countMethods rest := by
        intro tag hh
        rw [Except.bind_ok_iff] at hh
        obtain ⟨u, hu, hh⟩ := hh
        rw [Except.bind_ok_iff] at hh
        obtain ⟨item, hitem, hh⟩ := hh
        rw [ih _ tgs' hh, sumSizes_addToGroup]
      have hcount : countMethods ((method, details) :: rest) = countMethods rest + 1 := by
        simp only [countMethods, List.filter_cons, hrec, if_true, List.length_cons]
      cases htr : pyTruthy tags with
      | true =>
        simp only [htr, if_true] at h
        rw [Except.bind_ok_iff] at h
        obtain ⟨tag, htagv, h⟩ := h
        have := key tag h
        omega
      | false =>
        simp only [htr, Bool.false_eq_true, if_false, pure_bind] at h
        have := key _ h
        omega

theorem processPaths_count (spec : Json) (fuel : Nat) :
    ∀ (ps : List (String × Json)) (tgs tgs' : List (Json × List Json)),
      processPaths spec fuel ps tgs = .ok tgs' →
      sumSizes tgs' = sumSizes tgs + countPathsPairs ps := by
  intro ps
  induction ps with
  | nil =>
    intro tgs tgs' h
    simp only [processPaths] at h
    cases h
    simp [countPathsPairs]
  | cons p rest ih =>
    intro tgs tgs' h
    obtain ⟨path, methods⟩ := p
    simp only [processPaths] at h
    rw [Except.bind_ok_iff] at h
    obtain ⟨ms, hms, h⟩ := h
    rw [Except.bind_ok_iff] at h
    obtain ⟨tgs1, htgs1, h⟩ := h
    cases methods with
    | obj mkvs =>
      have h2 : mkvs = ms := by simpa [pyItems] using hms
      subst h2
      rw [ih tgs1 tgs' h, processMethods_count spec fuel path _ tgs tgs1 htgs1]
      simp [countPathsPairs]
      omega
    | null => simp [pyItems] at hms
    | bool b => simp [pyItems] at hms
    | int n => simp [pyItems] at hms
    | float q => simp [pyItems] at hms
    | str s => simp [pyItems] at hms
    | arr xs => simp [pyItems] at hms

/-! ## The claims -/

/-- Claim C1.  The claim says every Request Item carries bearer auth unless
its path starts with one of the public prefixes, and that in the section 8
scenario the POST `/widgets` item carries bearer auth.  Because `"/"` is in
the prefix allowlist and `_is_public_endpoint` tests `path.startswith`,
`/widgets` is classified public, so the produced item carries the explicit
no-auth block instead of bearer auth: the code contradicts its own comments
("ALL endpoints get bearer auth EXCEPT public endpoints ... ensures token
is always forwarded") for every path that starts with `/`. -/
theorem c1_allowlist_auth_widgets_post_noauth :
    is_public_endpoint "/widgets" = true ∧
    requestAuthOf (convert_endpoint_to_postman (.obj []) 2 "/widgets" "post"
      widgetsPostDetails) = some noauthJson ∧
    noauthJson ≠ bearerAuthJson :=
  ⟨rfl, rfl, by decide⟩

/-- Claim C2 (counterexample).  For the property `xs` of resolved type
`array` with items schema `{type: "string"}`, the synthesized value is
`[{}]` — a one-element list holding the empty mapping — not a one-element
list holding a placeholder string. -/
theorem c2_array_item_counterexample :
    generate_example_body (.obj []) 2
      (.obj [("properties", .obj [("xs", .obj [("type", .str "array"),
        ("items", .obj [("type", .str "string")])])])]) =
      .ok (.obj [("xs", .arr [.obj []])]) ∧
    Json.obj [] ≠ Json.str "<items>" :=
  ⟨rfl, by decide⟩

/-- Claim C2 (amended).  For every property whose resolved type is `array`:
with a truthy items schema the assigned value is the one-element list
holding the recursive synthesis result for the items schema; with an absent
or falsy items schema, the empty list.  Since recursion into
`{type: "string"}` yields the empty mapping (last conjunct), the element
for string-typed items is `{}`, not a placeholder string. -/
theorem c2_array_items_amended :
    (∀ (recur : Json → Except PyErr Json) (ex : List (String × Json)) (nm : String)
       (pd : List (String × Json)) (items inner : Json),
      lookupKey pd "example" = none →
      propType (.obj pd) = .ok (.str "array") →
      lookupKey pd "items" = some items → pyTruthy items = true →
      recur items = .ok inner →
      genProp recur ex (nm, .obj pd) = .ok (dictSet ex nm (.arr [inner]))) ∧
    (∀ (recur : Json → Except PyErr Json) (ex : List (String × Json)) (nm : String)
       (pd : List (String × Json)),
      lookupKey pd "example" = none →
      propType (.obj pd) = .ok (.str "array") →
      lookupKey pd "items" = none →
      genProp recur ex (nm, .obj pd) = .ok (dictSet ex nm (.arr []))) ∧
    (∀ (recur : Json → Except PyErr Json) (ex : List (String × Json)) (nm : String)
       (pd : List (String × Json)) (items : Json),
      lookupKey pd "example" = none →
      propType (.obj pd) = .ok (.str "array") →
      lookupKey pd "items" = some items → pyTruthy items = false →
      genProp recur ex (nm, .obj pd) = .ok (dictSet ex nm (.arr []))) ∧
    (∀ (spec : Json) (fuel : Nat),
      generate_example_body spec (fuel + 1) (.obj [("type", .str "string")]) =
        .ok (.obj [])) := by
  refine ⟨?_, ?_, ?_, fun spec fuel => rfl⟩
  · intro recur ex nm pd items inner hEx hPT hItems hTr hRec
    simp [genProp, pyContains, dictGet, hEx, hPT, hItems, hTr, hRec,
      Bind.bind, Except.bind, Pure.pure, Except.pure, Json.beq]
  · intro recur ex nm pd hEx hPT hItems
    simp [genProp, pyContains, dictGet, hEx, hPT, hItems,
      Bind.bind, Except.bind, Pure.pure, Except.pure, Json.beq, pyTruthy]
  · intro recur ex nm pd items hEx hPT hItems hTr
    simp [genProp, pyContains, dictGet, hEx, hPT, hItems, hTr,
      Bind.bind, Except.bind, Pure.pure, Except.pure, Json.beq]

/-- Claim C2 witness: instantiation of the array rule at the
section 8-style property. -/
theorem c2_array_items_amended_witness :
    genProp (generate_example_body (.obj []) 1) [] ("xs",
      .obj [("type", .str "array"), ("items", .obj [("type", .str "string")])]) =
      .ok [("xs", .arr [.obj []])] :=
  c2_array_items_amended.1 (generate_example_body (.obj []) 1) [] "xs"
    [("type", .str "array"), ("items", .obj [("type", .str "string")])]
    (.obj [("type", .str "string")]) (.obj []) rfl rfl rfl rfl rfl

/-- Claim C3 (counterexample).  A property with declared type `"null"` is
omitted from the synthesized example entirely: the output is the empty
mapping, not a mapping carrying the placeholder `<x>`. -/
theorem c3_unrecognized_type_counterexample :
    generate_example_body (.obj []) 1
      (.obj [("properties", .obj [("x", .obj [("type", .str "null")])])]) =
      .ok (.obj []) ∧
    Json.obj [] ≠ Json.obj [("x", Json.str "<x>")] :=
  ⟨rfl, by decide⟩

/-- Claim C3 (amended).  A declared property whose resolved type is not one
of the seven recognized type strings is skipped: the example accumulator is
returned unchanged, so the property is absent from the output mapping
(only a property with no declared type falls back to `"string"` and the
placeholder rule). -/
theorem c3_unrecognized_type_amended (recur : Json → Except PyErr Json)
    (ex : List (String × Json)) (nm : String) (pd : List (String × Json)) (tv : Json)
    (hEx : lookupKey pd "example" = none)
    (hPT : propType (.obj pd) = .ok tv)
    (hNot : tv ∉ ([.str "string", .str "integer", .str "number", .str "boolean",
                   .str "array", .str "object"] : List Json)) :
    genProp recur ex (nm, .obj pd) = .ok ex := by
  simp only [List.mem_cons, List.not_mem_nil, or_false, not_or] at hNot
  obtain ⟨h1, h2, h3, h4, h5, h6⟩ := hNot
  simp [genProp, pyContains, hEx, hPT,
    Json.beq_eq_false_of_ne h1, Json.beq_eq_false_of_ne h2, Json.beq_eq_false_of_ne h3,
    Json.beq_eq_false_of_ne h4, Json.beq_eq_false_of_ne h5, Json.beq_eq_false_of_ne h6,
    Bind.bind, Except.bind, Pure.pure, Except.pure]

/-- Claim C3 witness: the `type: "null"` property leaves the accumulator
unchanged. -/
theorem c3_unrecognized_type_amended_witness :
    genProp (generate_example_body (.obj []) 1) [] ("x", .obj [("type", .str "null")]) =
      .ok [] :=
  c3_unrecognized_type_amended (generate_example_body (.obj []) 1) [] "x"
    [("type", .str "null")] (.str "null") rfl rfl (by decide)

/-- Claim C4.  For a property schema declaring `anyOf` (and no explicit
example — the `example` check precedes type selection in `genProp`), the
selected type is the `type` of the first alternative that has one, and
`"string"` when no alternative has one; in particular, for
`anyOf: [{type: "integer"}, {type: "string"}]` the synthesized value is the
integer example 0. -/
theorem c4_anyof_first_type :
    (∀ (pd : List (String × Json)) (pre : List Json) (ak : List (String × Json))
       (rest : List Json) (tv : Json),
      lookupKey pd "anyOf" = some (.arr (pre ++ .obj ak :: rest)) →
      (∀ x ∈ pre, ∃ xk, x = Json.obj xk ∧ lookupKey xk "type" = none) →
      (∀ x ∈ rest, ∃ xk, x = Json.obj xk) →
      lookupKey ak "type" = some tv →
      propType (.obj pd) = .ok tv) ∧
    (∀ (pd : List (String × Json)) (alts : List Json),
      lookupKey pd "anyOf" = some (.arr alts) →
      (∀ x ∈ alts, ∃ xk, x = Json.obj xk ∧ lookupKey xk "type" = none) →
      propType (.obj pd) = .ok (.str "string")) ∧
    (∀ (recur : Json → Except PyErr Json) (ex : List (String × Json)) (nm : String),
      genProp recur ex (nm, .obj [("anyOf", .arr [.obj [("type", .str "integer")],
        .obj [("type", .str "string")]])]) = .ok (dictSet ex nm (.int 0))) := by
  refine ⟨?_, ?_, ?_⟩
  · intro pd pre ak rest tv hAnyOf hPre hRest hTv
    simp only [propType, pyContains, pySubscript, pyIter, hAnyOf, Option.isSome_some,
      Bind.bind, Except.bind, if_true]
    rw [List.foldlM_append]
    rw [foldl_collect_no_type pre hPre []]
    simp only [Bind.bind, Except.bind]
    rw [List.foldlM_cons, collectAnyOfTypes_with_type [] ak tv hTv]
    simp only [Bind.bind, Except.bind, List.nil_append]
    obtain ⟨ts, hts⟩ := foldl_collect_all_obj rest (fun y hy => hRest y hy) [tv]
    rw [hts]
    simp [Pure.pure, Except.pure]
  · intro pd alts hAnyOf hAll
    simp only [propType, pyContains, pySubscript, pyIter, hAnyOf, Option.isSome_some,
      Bind.bind, Except.bind, if_true]
    rw [foldl_collect_no_type alts hAll []]
    simp [Pure.pure, Except.pure]
  · intro recur ex nm
    rfl

/-- Claim C4 witness: a typeless alternative is skipped and the first
alternative with a `type` wins. -/
theorem c4_anyof_first_type_witness :
    propType (.obj [("anyOf", .arr [.obj [("description", .str "untyped")],
      .obj [("type", .str "integer")], .obj [("type", .str "string")]])]) =
      .ok (.str "integer") :=
  c4_anyof_first_type.1
    [("anyOf", .arr [.obj [("description", .str "untyped")],
      .obj [("type", .str "integer")], .obj [("type", .str "string")]])]
    [.obj [("description", .str "untyped")]] [("type", .str "integer")]
    [.obj [("type", .str "string")]] (.str "integer") rfl
    (fun x hx => by simp at hx; subst hx; exact ⟨_, rfl, rfl⟩)
    (fun x hx => by simp at hx; subst hx; exact ⟨_, rfl⟩)
    rfl

/-- Claim C5 (counterexample).  Resolving the pointer `#/a/b` against the
document `{"a": 5}` raises AttributeError (the walk calls `.get` on the
integer 5), contradicting "returns the empty mapping and never raises" for
a pointer with an absent segment. -/
theorem c5_resolver_raises_counterexample :
    resolve_schema_ref (.obj [("a", .int 5)]) (.obj [("$ref", .str "#/a/b")]) =
      .error .attributeError :=
  rfl

/-- Claim C5 (amended).  A fragment without `$ref` is returned unchanged; a
fragment with a string `$ref` dispatches to the pointer walk over the
slash-split segments; and whenever the walk stays within mappings
(`walkOk`), it returns exactly the walk the spec describes — each lookup on
a mapping substituting the empty mapping for an absent segment, without
raising.  (The embedding is a pure function of the document, which is
therefore never mutated; only a walk that reaches a non-mapping
intermediate value raises, per the counterexample.) -/
theorem c5_resolver_amended :
    (∀ (spec : Json) (kvs : List (String × Json)),
      lookupKey kvs "$ref" = none →
      resolve_schema_ref spec (.obj kvs) = .ok (.obj kvs)) ∧
    (∀ (spec : Json) (kvs : List (String × Json)) (r : String),
      lookupKey kvs "$ref" = some (.str r) →
      resolve_schema_ref spec (.obj kvs) = walkSegs spec (pySplitSlash r)) ∧
    (∀ (doc : Json) (segs : List String),
      walkOk doc segs = true → walkSegs doc segs = .ok (specResolveWalk doc segs)) := by
  refine ⟨?_, ?_, ?_⟩
  · intro spec kvs h
    simp [resolve_schema_ref, pyContains, h, Bind.bind, Except.bind, Pure.pure, Except.pure]
  · intro spec kvs r h
    simp [resolve_schema_ref, pyContains, pySubscript, h, Bind.bind, Except.bind]
  · intro doc segs
    induction segs generalizing doc with
    | nil => intro _; rfl
    | cons s rest ih =>
      intro hok
      rw [walkSegs_cons]
      by_cases hs : s = "#"
      · simp only [walkOk, if_pos hs] at hok
        rw [if_pos hs, pure_bind, ih doc hok]
        simp only [specResolveWalk, if_pos hs]
      · cases doc with
        | obj kvs =>
          simp only [walkOk, if_neg hs] at hok
          simp only [if_neg hs, dictGet, Bind.bind, Except.bind]
          rw [ih _ hok]
          simp only [specResolveWalk, if_neg hs]
        | null => simp [walkOk, if_neg hs] at hok
        | bool b => simp [walkOk, if_neg hs] at hok
        | int n => simp [walkOk, if_neg hs] at hok
        | float q => simp [walkOk, if_neg hs] at hok
        | str s2 => simp [walkOk, if_neg hs] at hok
        | arr xs => simp [walkOk, if_neg hs] at hok

/-- Claim C5 witness: resolving `#/components/schemas/Foo` against a
document containing that path returns the target mapping. -/
theorem c5_resolver_amended_witness :
    resolve_schema_ref
      (.obj [("components", .obj [("schemas", .obj [("Foo", .obj [("a", .int 1)])])])])
      (.obj [("$ref", .str "#/components/schemas/Foo")]) =
      .ok (.obj [("a", .int 1)]) :=
  (c5_resolver_amended.2.1
    (.obj [("components", .obj [("schemas", .obj [("Foo", .obj [("a", .int 1)])])])])
    [("$ref", .str "#/components/schemas/Foo")] "#/components/schemas/Foo" rfl).trans
    (by rfl)

/-- Claim C6.  For a declared property without an explicit example, with
its resolved type as shown: `integer` synthesizes exactly the int 0,
`number` the float 0.0, `boolean` False; `string` with a (non-empty) enum
synthesizes the first enum value, and `string` without an enum the
placeholder `<property_name>`. -/
theorem c6_primitive_defaults (recur : Json → Except PyErr Json)
    (ex : List (String × Json)) (nm : String) (pd : List (String × Json))
    (hEx : lookupKey pd "example" = none) :
    (propType (.obj pd) = .ok (.str "integer") →
      genProp recur ex (nm, .obj pd) = .ok (dictSet ex nm (.int 0))) ∧
    (propType (.obj pd) = .ok (.str "number") →
      genProp recur ex (nm, .obj pd) = .ok (dictSet ex nm (.float 0))) ∧
    (propType (.obj pd) = .ok (.str "boolean") →
      genProp recur ex (nm, .obj pd) = .ok (dictSet ex nm (.bool false))) ∧
    (∀ v vs, propType (.obj pd) = .ok (.str "string") →
      lookupKey pd "enum" = some (.arr (v :: vs)) →
      genProp recur ex (nm, .obj pd) = .ok (dictSet ex nm v)) ∧
    (propType (.obj pd) = .ok (.str "string") → lookupKey pd "enum" = none →
      genProp recur ex (nm, .obj pd) = .ok (dictSet ex nm (.str ("<" ++ nm ++ ">")))) := by
  refine ⟨fun h => ?_, fun h => ?_, fun h => ?_, fun v vs h hE => ?_, fun h hE => ?_⟩ <;>
    simp [genProp, pyContains, pySubscript, pyIndex0, hEx, h, Bind.bind, Except.bind,
      Json.beq, Pure.pure, Except.pure]
  · simp [hE]
  · simp [hE]

/-- Claim C6 witness: an integer-typed property synthesizes 0. -/
theorem c6_primitive_defaults_witness :
    genProp (generate_example_body (.obj []) 1) [] ("qty", .obj [("type", .str "integer")]) =
      .ok [("qty", .int 0)] :=
  (c6_primitive_defaults (generate_example_body (.obj []) 1) [] "qty"
    [("type", .str "integer")] rfl).1 rfl

/-- Claim C7.  Whenever the assembler returns a collection, the total
number of request items across all tag groups equals the number of
(path, method) pairs whose lower-cased method token is one of the seven
standard HTTP verbs; pairs with any other token contribute nothing. -/
theorem c7_endpoint_count (spec : Json) (fuel : Nat) (base_url : String) (coll : Json)
    (h : convert_to_postman spec fuel base_url = .ok coll) :
    totalItems coll = countRecognized spec := by
  simp only [convert_to_postman] at h
  rw [Except.bind_ok_iff] at h
  obtain ⟨info, hinfo, h⟩ := h
  rw [Except.bind_ok_iff] at h
  obtain ⟨paths, hpaths, h⟩ := h
  rw [Except.bind_ok_iff] at h
  obtain ⟨nm, hnm, h⟩ := h
  rw [Except.bind_ok_iff] at h
  obtain ⟨descr, hdescr, h⟩ := h
  rw [Except.bind_ok_iff] at h
  obtain ⟨pitems, hpitems, h⟩ := h
  rw [Except.bind_ok_iff] at h
  obtain ⟨tgs, htgs, h⟩ := h
  simp only [Pure.pure, Except.pure, Except.ok.injEq] at h
  rw [← h]
  have hsum := processPaths_count spec fuel pitems [] tgs htgs
  cases spec with
  | obj skvs =>
    have hpv : (lookupKey skvs "paths").getD (.obj []) = paths := by
      simpa [dictGet] using hpaths
    cases hpm : paths with
    | obj pkvs =>
      have h2 : pkvs = pitems := by
        rw [hpm] at hpitems
        simpa [pyItems] using hpitems
      subst h2
      rw [hpm] at hpv
      have hc : countRecognized (Json.obj skvs) = countPathsPairs pkvs := by
        simp only [countRecognized, hpv]
      rw [hc, totalItems_assembled]
      rw [sumSizes_nil, Nat.zero_add] at hsum
      exact hsum
    | null => rw [hpm] at hpitems; simp [pyItems] at hpitems
    | bool b => rw [hpm] at hpitems; simp [pyItems] at hpitems
    | int n => rw [hpm] at hpitems; simp [pyItems] at hpitems
    | float q => rw [hpm] at hpitems; simp [pyItems] at hpitems
    | str s => rw [hpm] at hpitems; simp [pyItems] at hpitems
    | arr xs => rw [hpm] at hpitems; simp [pyItems] at hpitems
  | null => simp [dictGet] at hinfo
  | bool b => simp [dictGet] at hinfo
  | int n => simp [dictGet] at hinfo
  | float q => simp [dictGet] at hinfo
  | str s => simp [dictGet] at hinfo
  | arr xs => simp [dictGet] at hinfo

/-- Claim C7 witness: on the concrete `widgetsSpec` (GET + POST + one
vendor-extension token under one path) the produced collection holds
exactly the 2 recognized pairs. -/
theorem c7_endpoint_count_witness :
    totalItems ((convert_to_postman widgetsSpec 3 "http://localhost").toOption.getD .null) =
      countRecognized widgetsSpec ∧ countRecognized widgetsSpec = 2 :=
  ⟨c7_endpoint_count widgetsSpec 3 "http://localhost" _ rfl, rfl⟩

/-- Claim C8 (counterexample).  A malformed (non-mapping) schema raises:
synthesis on the string "not a schema" raises AttributeError
(`schema.get("properties", {})` on a str), contradicting "never raises". -/
theorem c8_malformed_raises_counterexample :
    generate_example_body (.obj []) 1 (.str "not a schema") = .error .attributeError :=
  rfl

/-- Claim C8 (amended).  An absent (empty) schema yields the empty example
mapping without raising; but a schema value that is not a mapping makes
synthesis raise (AttributeError or TypeError) rather than recover. -/
theorem c8_synthesizer_amended :
    (∀ (spec : Json) (fuel : Nat),
      generate_example_body spec (fuel + 1) (.obj []) = .ok (.obj [])) ∧
    (∀ (spec : Json) (fuel : Nat) (j : Json), isObjJson j = false →
      exceptIsOk (generate_example_body spec (fuel + 1) j) = false) := by
  constructor
  · intro spec fuel; rfl
  · intro spec fuel j hj
    cases j with
    | obj kvs => simp [isObjJson] at hj
    | null => rfl
    | bool b => rfl
    | int n => rfl
    | float q => rfl
    | str s =>
      simp only [generate_example_body, resolve_schema_ref, pyContains]
      cases hsub : hasSubstr s "$ref" with
      | true => simp [hsub, pySubscript, Bind.bind, Except.bind, exceptIsOk]
      | false =>
        simp [hsub, dictGet, Bind.bind, Except.bind, Pure.pure, Except.pure, exceptIsOk]
    | arr xs =>
      simp only [generate_example_body, resolve_schema_ref, pyContains]
      cases hsub : xs.any fun x => Json.beq x (.str "$ref") with
      | true => simp [hsub, pySubscript, Bind.bind, Except.bind, exceptIsOk]
      | false =>
        simp [hsub, dictGet, Bind.bind, Except.bind, Pure.pure, Except.pure, exceptIsOk]

/-- Claim C8 witness: a string schema is rejected by exception, not
recovered. -/
theorem c8_synthesizer_amended_witness :
    exceptIsOk (generate_example_body (.obj []) 1 (.str "not a schema")) = false :=
  c8_synthesizer_amended.2 (.obj []) 0 (.str "not a schema") rfl

/-- Claim C9.  The Environment Generator produces exactly three
environments; each holds exactly six variable records with keys base_url,
access_token, token_expiry, user_id, role, mobile in that order, the
access_token record typed "secret"; and any two of the environments agree
on everything except the id/name (the naming suffix) and the role record's
value. -/
theorem c9_three_role_environments (spec : Json) (base_url : String)
    (kvs ik : List (String × Json)) (title : String) (envs : List Json)
    (hSpec : spec = .obj kvs) (hInfo : lookupKey kvs "info" = some (.obj ik))
    (hTitle : lookupKey ik "title" = some (.str title))
    (hRun : generate_environments spec base_url = .ok envs) :
    envs.length = 3 ∧
    (∀ env ∈ envs, ∃ recs : List Json,
      envValues env = some (.arr recs) ∧ recs.length = 6 ∧
      recs.map (fun r => recordField r "key") =
        [some (.str "base_url"), some (.str "access_token"), some (.str "token_expiry"),
         some (.str "user_id"), some (.str "role"), some (.str "mobile")] ∧
      (∀ r ∈ recs, recordField r "key" = some (.str "access_token") →
        recordField r "type" = some (.str "secret"))) ∧
    (∀ e1 ∈ envs, ∀ e2 ∈ envs, scrubEnv e1 = scrubEnv e2) := by
  subst hSpec
  have henvs : envs = rolesList.map (mkEnvironment (.str title) base_url) := by
    simp [generate_environments, dictGet, hInfo, hTitle, Bind.bind, Except.bind,
      Pure.pure, Except.pure] at hRun
    exact hRun.symm
  subst henvs
  refine ⟨rfl, ?_, ?_⟩
  · intro env henv
    simp only [rolesList, List.map_cons, List.map_nil, List.mem_cons,
      List.not_mem_nil, or_false] at henv
    rcases henv with h | h | h <;> subst h <;>
      exact ⟨_, rfl, rfl, rfl, by
        intro r hr hkey
        fin_cases hr <;> simp_all [recordField, lookupKey]⟩
  · intro e1 he1 e2 he2
    simp only [rolesList, List.map_cons, List.map_nil, List.mem_cons,
      List.not_mem_nil, or_false] at he1 he2
    rcases he1 with h1 | h1 | h1 <;> rcases he2 with h2 | h2 | h2 <;>
      subst h1 <;> subst h2 <;> rfl

/-- Claim C9 witness: three environments are generated for the concrete
`envSpec`. -/
theorem c9_three_role_environments_witness :
    envSpecEnvs.length = 3 :=
  (c9_three_role_environments envSpec "http://localhost"
    [("info", .obj [("title", .str "Widget API")])] [("title", .str "Widget API")]
    "Widget API" envSpecEnvs rfl rfl rfl rfl).1

/-- Claim C10.  The Example Synthesizer either raises or returns a mapping
(never a scalar or a list); with `$ref` absent, deleting a top-level
`type` entry cannot change its output; and the schema `{type: "string"}`
with no properties synthesizes to the empty mapping. -/
theorem c10_synthesizer_returns_mapping :
    (∀ (spec : Json) (fuel : Nat) (schema : Json),
      exceptIsOk (generate_example_body spec fuel schema) = false ∨
      ∃ kvs, generate_example_body spec fuel schema = .ok (.obj kvs)) ∧
    (∀ (spec : Json) (fuel : Nat) (kvs : List (String × Json)),
      lookupKey kvs "$ref" = none →
      generate_example_body spec fuel (.obj kvs) =
        generate_example_body spec fuel (.obj (eraseKey kvs "type"))) ∧
    (∀ (spec : Json) (fuel : Nat),
      generate_example_body spec (fuel + 1) (.obj [("type", .str "string")]) =
        .ok (.obj [])) := by
  refine ⟨?_, ?_, fun spec fuel => rfl⟩
  · intro spec fuel schema
    cases fuel with
    | zero => left; rfl
    | succ n =>
      simp only [generate_example_body]
      cases h1 : resolve_schema_ref spec schema with
      | error e => left; simp [Bind.bind, Except.bind, h1, exceptIsOk]
      | ok sc =>
        cases h2 : dictGet sc "properties" (.obj []) with
        | error e => left; simp [Bind.bind, Except.bind, h1, h2, exceptIsOk]
        | ok props =>
          cases h3 : dictGet sc "required" (.arr []) with
          | error e => left; simp [Bind.bind, Except.bind, h1, h2, h3, exceptIsOk]
          | ok req =>
            cases h4 : pyItems props with
            | error e => left; simp [Bind.bind, Except.bind, h1, h2, h3, h4, exceptIsOk]
            | ok lst =>
              cases h5 : lst.foldlM (genProp (generate_example_body spec n)) [] with
              | error e =>
                left; simp [Bind.bind, Except.bind, h1, h2, h3, h4, h5, exceptIsOk]
              | ok exl =>
                right
                exact ⟨exl, by simp [Bind.bind, Except.bind, h1, h2, h3, h4, h5]; rfl⟩
  · intro spec fuel kvs hNoRef
    cases fuel with
    | zero => rfl
    | succ n =>
      have hRef : lookupKey (eraseKey kvs "type") "$ref" = none := by
        rw [lookupKey_eraseKey kvs "type" "$ref" (by decide)]; exact hNoRef
      have hProps : lookupKey (eraseKey kvs "type") "properties" = lookupKey kvs "properties" :=
        lookupKey_eraseKey kvs "type" "properties" (by decide)
      have hReq : lookupKey (eraseKey kvs "type") "required" = lookupKey kvs "required" :=
        lookupKey_eraseKey kvs "type" "required" (by decide)
      simp [generate_example_body, resolve_schema_ref, pyContains, dictGet,
        hNoRef, hRef, hProps, hReq, Bind.bind, Except.bind, Pure.pure, Except.pure]

/-- Claim C10 witness: removing the top-level `type` from a refless schema
does not change the synthesized value. -/
theorem c10_synthesizer_returns_mapping_witness :
    generate_example_body (.obj []) 1 (.obj [("properties", .obj []), ("type", .str "string")]) =
      generate_example_body (.obj []) 1
        (.obj (eraseKey [("properties", .obj []), ("type", .str "string")] "type")) :=
  c10_synthesizer_returns_mapping.2.1 (.obj []) 1
    [("properties", .obj []), ("type", .str "string")] rfl
